import Mathlib

/-!
Shallow embedding of the Trivia backend (`backend/flaskr/__init__.py`):
the `Question` data model, the request handlers the claims concern, and
the Python/SQL primitives they rely on (list slicing, `ILIKE` pattern
matching, `random.choice`, `list.remove`), together with theorems that
settle the specification claims.

The store is modelled as a list of `Question` rows.  Each handler is a
pure function from its request inputs and the store to an
`Except Nat` result, where `.error c` models Flask's `abort(c)`
(the HTTP status code produced by the error handlers).  A handler whose
source wraps its body in `try: ... except: abort(c)` is embedded as a
`..._try` function (the body, whose `.error` values are the exceptions
the body raises, HTTP aborts included) plus a wrapper that maps every
raised exception to the code of the bare `except:` clause, exactly as
Python's bare `except:` catches `werkzeug` HTTP exceptions too.
-/

/-- A `Question` row, as produced by `Question.format()`: its `id`
(store-assigned primary key), `question` and `answer` texts, `category`
id and `difficulty` score. -/
structure Question where
  id : Nat
  question : String
  answer : String
  category : Int
  difficulty : Int
deriving DecidableEq

/-- The Question table: a list of rows. -/
abbrev Store := List Question

/-- `QUESTIONS_PER_PAGE = 10` from the source. -/
def QUESTIONS_PER_PAGE : Int := 10

/-- Python index normalisation for a slice bound: a negative index counts
from the end (`i + len`, clamped below at 0), a non-negative index is
clamped above at `len`. -/
def pyIdx (len : Nat) (i : Int) : Nat :=
  if i < 0 then (i + len).toNat else min i.toNat len

/-- Python list slicing `l[a:b]` with integer bounds, as used by
`questions[start:end]` in the source. -/
def pySlice (l : List α) (a b : Int) : List α :=
  (l.take (pyIdx l.length b)).drop (pyIdx l.length a)

/-- The ordering used by `order_by(Question.id)`. -/
def qle (a b : Question) : Prop := a.id ≤ b.id

instance : DecidableRel qle := fun a b => inferInstanceAs (Decidable (a.id ≤ b.id))

instance : IsTotal Question qle := ⟨fun a b => Nat.le_total a.id b.id⟩

instance : IsTrans Question qle := ⟨fun _ _ _ hab hbc => Nat.le_trans hab hbc⟩

/-- `Question.query.order_by(Question.id)`: the rows sorted by ascending id. -/
def orderById (l : Store) : Store := List.insertionSort qle l

/-- SQL `LIKE` pattern matching on the two character lists, with letters
compared case-insensitively (so it is `ILIKE`): `%` matches any sequence
of characters, `_` matches exactly one character, any other pattern
character matches one text character up to case. -/
def likeMatch : List Char → List Char → Bool
  | [], s => s.isEmpty
  | '%' :: p, s => (List.tails s).any (fun t => likeMatch p t)
  | '_' :: _, [] => false
  | '_' :: p, _ :: t => likeMatch p t
  | _ :: _, [] => false
  | c :: p, d :: t => (c.toLower == d.toLower) && likeMatch p t

/-- `column.ilike(pattern)` from the source's search query. -/
def sqlIlike (pattern s : String) : Bool := likeMatch pattern.toList s.toList

/-- Python truthiness of an optional string field (`None` and `""` are falsy). -/
def truthyStr : Option String → Bool
  | some s => !(s == "")
  | none => false

/-- Python truthiness of an optional integer field (`None` and `0` are falsy). -/
def truthyInt : Option Int → Bool
  | some n => !(n == 0)
  | none => false

/-- Payload of the listing-style responses: the returned `questions` list
and the `total_questions` field.  (The `categories` mapping and the null
`current_category` carried by some responses are constant decorations the
claims do not touch.) -/
structure ListResult where
  questions : List Question
  total_questions : Nat
deriving DecidableEq

/-- `GET /questions?page=N` (`get_questions` in the source): order all
questions by id, slice `[start:end]` with `start = (page-1)*10`,
`end = start+10` (Python slicing), `abort(404)` when the slice is empty,
otherwise return the slice and the total question count.  This handler
has no `try`/`except`, so the 404 is surfaced as such. -/
def get_questions (page : Int) (store : Store) : Except Nat ListResult :=
  let start := (page - 1) * QUESTIONS_PER_PAGE
  let stop := start + QUESTIONS_PER_PAGE
  let questions := orderById store
  let current_questions := pySlice questions start stop
  if current_questions.length = 0 then .error 404
  else .ok ⟨current_questions, questions.length⟩

/-- SQLAlchemy `Query.one_or_none()` over `filter_by(id=id)`: `none` when
no row matches, the row when exactly one does; two or more matching rows
raise `MultipleResultsFound`, a non-HTTP exception which we mark with
code 0 (the surrounding bare `except:` collapses it like any other). -/
def one_or_none (id : Nat) (store : Store) : Except Nat (Option Question) :=
  match store.filter (fun q => q.id == id) with
  | [] => .ok none
  | [q] => .ok (some q)
  | _ => .error 0

/-- The `try:` body of `DELETE /questions/<id>` (`delete_question`): look
the row up with `one_or_none`; `abort(404)` when absent; otherwise remove
it and return the deleted id with the new store.  (`question.delete()` is
modelled from the spec: remove the row from the store.) -/
def delete_question_try (id : Nat) (store : Store) : Except Nat (Nat × Store) := do
  let qOpt ← one_or_none id store
  match qOpt with
  | none => .error 404
  | some q => .ok (id, store.filter (fun x => !(x.id == q.id)))

/-- `DELETE /questions/<id>` with its `try ... except: abort(422)`: the
bare `except:` catches every exception raised in the body — including the
`werkzeug` `NotFound` raised by `abort(404)` — and replaces it with 422. -/
def delete_question (id : Nat) (store : Store) : Except Nat (Nat × Store) :=
  match delete_question_try id store with
  | .ok r => .ok r
  | .error _ => .error 422

/-- The JSON body of `POST /questions`, with the five fields the handler
reads via `body.get(...)`, each `none` when absent. -/
structure RequestBody where
  question : Option String
  answer : Option String
  category : Option Int
  difficulty : Option Int
  searchTerm : Option String

/-- The two success payloads of `POST /questions`: search results, or the
bare success flag of a creation. -/
inductive CreateResponse where
  | searched (res : ListResult)
  | created
deriving DecidableEq

/-- The `try:` body of `POST /questions` (`create_question`).  With a
truthy `searchTerm`: filter by `ilike('%term%')` ordered by id, apply the
same page window, return matches and total match count, store untouched.
Otherwise: `abort(400)` when any of the four fields is falsy, else insert
the new row and return the bare success flag.  (`new_question.insert()`
is modelled from the spec: persist a new row with a store-assigned id,
here the `newId` argument.) -/
def create_question_try (page : Int) (body : RequestBody) (store : Store)
    (newId : Nat) : Except Nat (CreateResponse × Store) :=
  if truthyStr body.searchTerm then
    let t := body.searchTerm.getD ""
    let query := (orderById store).filter (fun q => sqlIlike ("%" ++ t ++ "%") q.question)
    let start := (page - 1) * QUESTIONS_PER_PAGE
    let stop := start + QUESTIONS_PER_PAGE
    let current_questions := pySlice query start stop
    .ok (.searched ⟨current_questions, query.length⟩, store)
  else
    if !truthyStr body.question || !truthyStr body.answer
        || !truthyInt body.category || !truthyInt body.difficulty then
      .error 400
    else
      .ok (.created, store ++ [⟨newId, body.question.getD "", body.answer.getD "",
        body.category.getD 0, body.difficulty.getD 0⟩])

/-- `POST /questions` with its `try ... except: abort(422)`: the bare
`except:` catches every exception raised in the body — including the
`werkzeug` `BadRequest` raised by `abort(400)` — and replaces it with 422. -/
def create_question (page : Int) (body : RequestBody) (store : Store)
    (newId : Nat) : Except Nat (CreateResponse × Store) :=
  match create_question_try page body store newId with
  | .ok r => .ok r
  | .error _ => .error 422

/-- `GET /categories/<category_id>/questions` (`get_by_category`): all
questions of that category ordered by ascending id, with their count; no
pagination, no abort of any kind. -/
def get_by_category (category_id : Int) (store : Store) : ListResult :=
  let query := orderById (store.filter (fun q => q.category == category_id))
  ⟨query, query.length⟩

/-- The `quiz_category` object of a quiz request body. -/
structure QuizCategory where
  id : Int
  type : String
deriving DecidableEq

/-- The JSON body of `POST /quizzes`: `previous_questions` (a list of
question ids) and `quiz_category`, each `none` when absent. -/
structure QuizBody where
  previous_questions : Option (List Nat)
  quiz_category : Option QuizCategory

/-- The Python loop `for question in list(questions): if question["id"] in
past_questions: questions.remove(question)`: iterate over a copy of the
list, and for each element whose id is a previous question remove its
first occurrence from the working list. -/
def quizFilter (questions : Store) (past : List Nat) : Store :=
  questions.foldl (fun acc q => if q.id ∈ past then acc.erase q else acc) questions

/-- The candidate fetch of `POST /quizzes`: `if category and
category["id"]:` fetch only that category's questions, else all
questions (no ordering clause in the source). -/
def quizCandidates (body : QuizBody) (store : Store) : Store :=
  match body.quiz_category with
  | some c => if truthyInt (some c.id) then store.filter (fun q => q.category == c.id) else store
  | none => store

/-- The ids against which candidates are excluded: `previous_questions`,
or the empty list when the field is absent (the source's
`if past_questions:` also skips filtering on an empty list, which removes
nothing either way). -/
def prevIds (body : QuizBody) : List Nat := body.previous_questions.getD []

/-- The `try:` body of `POST /quizzes` (`get_quizzes`): fetch candidates,
`abort(404)` when there are none, drop previously seen questions when
`past_questions` is truthy, then `random.choice` on the remainder when it
is non-empty, else a null question.  `random.choice` is modelled by the
`pick` argument: the chosen index into the remainder, reduced modulo its
length. -/
def get_quizzes_try (pick : Nat) (body : QuizBody) (store : Store) :
    Except Nat (Option Question) :=
  let questions := quizCandidates body store
  if questions.length = 0 then .error 404
  else
    let questions :=
      match body.previous_questions with
      | some ps => if !ps.isEmpty then quizFilter questions ps else questions
      | none => questions
    if questions.length ≠ 0 then .ok questions[pick % questions.length]?
    else .ok none

/-- `POST /quizzes` with its `try ... except: abort(400)`: the bare
`except:` catches every exception raised in the body — including the
`werkzeug` `NotFound` raised by `abort(404)` — and replaces it with 400. -/
def get_quizzes (pick : Nat) (body : QuizBody) (store : Store) :
    Except Nat (Option Question) :=
  match get_quizzes_try pick body store with
  | .ok r => .ok r
  | .error _ => .error 400

/-- The spec's description of the search predicate (§4.4): the search
term is contained in the question text as a substring, case-insensitively.
Stated from the spec's words, to be compared with the source's
`ilike('%term%')`. -/
def ciSubstring (term text : String) : Prop :=
  term.toList.map Char.toLower <:+: text.toList.map Char.toLower


/-! ### Lemmas about the Python slice primitive -/

theorem pyIdx_le_length (len : Nat) (i : Int) : pyIdx len i ≤ len := by
  unfold pyIdx
  split <;> omega

theorem pySlice_length (l : List α) (a b : Int) :
    (pySlice l a b).length = pyIdx l.length b - pyIdx l.length a := by
  unfold pySlice
  rw [List.length_drop, List.length_take]
  have := pyIdx_le_length l.length b
  omega

theorem pyIdx_add_ten (len : Nat) (a : Int) : pyIdx len (a + 10) ≤ pyIdx len a + 10 := by
  unfold pyIdx
  split <;> split <;> omega

theorem take_min_length (l : List α) (n : Nat) : l.take (min n l.length) = l.take n := by
  rcases Nat.le_total n l.length with h | h
  · rw [Nat.min_eq_left h]
  · rw [Nat.min_eq_right h, List.take_length, List.take_of_length_le h]

theorem pySlice_nonneg (l : List α) (a : Int) (ha : 0 ≤ a) :
    pySlice l a (a + 10) = (l.drop a.toNat).take 10 := by
  unfold pySlice pyIdx
  rw [if_neg (by omega), if_neg (by omega), take_min_length]
  have h10 : (a + 10).toNat = a.toNat + 10 := by omega
  rcases Nat.le_total a.toNat l.length with h | h
  · rw [Nat.min_eq_left h, h10, List.drop_take]
    simp
  · rw [Nat.min_eq_right h, List.drop_eq_nil_of_le (by rw [List.length_take]; omega),
      List.drop_eq_nil_of_le h, List.take_nil]

theorem pySlice_isInfix (l : List α) (a b : Int) : pySlice l a b <:+: l := by
  refine ⟨(l.take (pyIdx l.length b)).take (pyIdx l.length a), l.drop (pyIdx l.length b), ?_⟩
  unfold pySlice
  rw [List.take_append_drop, List.take_append_drop]

theorem pySlice_nil (a b : Int) : pySlice ([] : List α) a b = [] := by
  simp [pySlice]

/-! ### Lemmas about the id ordering -/

theorem orderById_perm (l : Store) : (orderById l).Perm l := List.perm_insertionSort qle l

theorem orderById_length (l : Store) : (orderById l).length = l.length :=
  (orderById_perm l).length_eq

theorem orderById_mem (l : Store) (q : Question) : q ∈ orderById l ↔ q ∈ l :=
  (orderById_perm l).mem_iff

theorem orderById_sorted (l : Store) : (orderById l).Sorted qle :=
  List.sorted_insertionSort qle l

/-! ### The quiz exclusion loop -/

theorem foldl_erase_eq_filter (past : List Nat) :
    ∀ (rest acc : Store), acc.Nodup →
      rest.foldl (fun acc q => if q.id ∈ past then acc.erase q else acc) acc =
        acc.filter (fun x => !(decide (x ∈ rest) && decide (x.id ∈ past)))
  | [], acc, _ => by simp
  | q :: rest, acc, h => by
    rw [List.foldl_cons]
    by_cases hq : q.id ∈ past
    · rw [if_pos hq, foldl_erase_eq_filter past rest _ (h.erase q), h.erase_eq_filter q,
        List.filter_filter]
      apply List.filter_congr
      intro x _
      by_cases hxq : x = q
      · subst hxq
        simp [hq]
      · simp [hxq, List.mem_cons]
    · rw [if_neg hq, foldl_erase_eq_filter past rest acc h]
      apply List.filter_congr
      intro x _
      by_cases hxq : x = q
      · subst hxq
        simp [hq, List.mem_cons]
      · simp [hxq, List.mem_cons]

theorem quizFilter_eq_filter (qs : Store) (past : List Nat) (h : qs.Nodup) :
    quizFilter qs past = qs.filter (fun x => !decide (x.id ∈ past)) := by
  rw [quizFilter, foldl_erase_eq_filter past qs qs h]
  apply List.filter_congr
  intro x hx
  simp [hx]

/-- An element produced by `getElem?` is a member of the list. -/
theorem mem_of_getElem_opt {l : List α} {i : Nat} {a : α} (h : l[i]? = some a) : a ∈ l := by
  obtain ⟨hl, rfl⟩ := List.getElem?_eq_some.mp h
  exact List.getElem_mem hl

/-! ### Sample rows and bodies used by concrete evaluations -/

/-- A sample question row. -/
def q0 : Question := ⟨1, "q", "a", 1, 1⟩

/-! ### Claim theorems -/

/-- C10: `list_questions(0)` computes the window `[-10, 0)`, whose Python
slice is empty for every store state, so the handler always answers 404
no matter how many questions exist. -/
theorem C10_page_zero_always_404 (store : Store) :
    pySlice (orderById store) (-10) 0 = [] ∧ get_questions 0 store = .error 404 := by
  have hempty : pySlice (orderById store) (-10) 0 = [] := by
    simp [pySlice, pyIdx]
  refine ⟨hempty, ?_⟩
  have h10 : ((0 : Int) - 1) * QUESTIONS_PER_PAGE = -10 := by decide
  have h0 : (-10 : Int) + QUESTIONS_PER_PAGE = 0 := by decide
  simp only [get_questions, h10, h0, hempty, List.length_nil, if_pos]

/-- C6: whenever the computed window slice of the id-ordered question
list is empty (page beyond range, or no questions at all),
`list_questions` fails with 404. -/
theorem C6_empty_window_404 (page : Int) (store : Store)
    (h : pySlice (orderById store) ((page - 1) * QUESTIONS_PER_PAGE)
        ((page - 1) * QUESTIONS_PER_PAGE + QUESTIONS_PER_PAGE) = []) :
    get_questions page store = .error 404 := by
  simp only [get_questions, h, List.length_nil, if_pos]

/-- Witness for C6 at page 1 on an empty store. -/
theorem C6_empty_window_404_witness : get_questions 1 [] = .error 404 :=
  C6_empty_window_404 1 [] (by rfl)

/-- C5: on every successful `list_questions(page)` response, the returned
questions are exactly the Python slice `[(page-1)*10 : (page-1)*10+10]`
of the id-ordered question list — a contiguous piece of that list of at
most 10 items, and for every page ≥ 1 literally the elements at
positions `(page-1)*10` up to `(page-1)*10+10` — and `total_questions`
is the full store count, not the window size. -/
theorem C5_window_and_total (page : Int) (store : Store) (r : ListResult)
    (h : get_questions page store = .ok r) :
    r.questions = pySlice (orderById store) ((page - 1) * QUESTIONS_PER_PAGE)
        ((page - 1) * QUESTIONS_PER_PAGE + QUESTIONS_PER_PAGE) ∧
    r.questions <:+: orderById store ∧
    r.questions.length ≤ 10 ∧
    r.total_questions = store.length ∧
    (1 ≤ page →
      r.questions = ((orderById store).drop ((page - 1) * QUESTIONS_PER_PAGE).toNat).take 10) := by
  rw [get_questions] at h
  split at h
  · exact absurd h (by simp)
  · rw [Except.ok.injEq] at h
    subst h
    refine ⟨rfl, pySlice_isInfix .., ?_, orderById_length store, ?_⟩
    · rw [pySlice_length]
      have := pyIdx_add_ten (orderById store).length ((page - 1) * QUESTIONS_PER_PAGE)
      simp only [QUESTIONS_PER_PAGE] at *
      omega
    · intro hpage
      simp only [QUESTIONS_PER_PAGE]
      exact pySlice_nonneg (orderById store) ((page - 1) * 10) (by omega)

/-- Witness for C5: page 1 on a one-question store. -/
theorem C5_window_and_total_witness :
    ([q0] : List Question) = pySlice (orderById [q0]) ((1 - 1) * QUESTIONS_PER_PAGE)
        ((1 - 1) * QUESTIONS_PER_PAGE + QUESTIONS_PER_PAGE) ∧
    ([q0] : List Question) <:+: orderById [q0] ∧
    ([q0] : List Question).length ≤ 10 ∧
    (1 : Nat) = ([q0] : Store).length ∧
    ((1 : Int) ≤ 1 →
      [q0] = ((orderById [q0]).drop (((1 : Int) - 1) * QUESTIONS_PER_PAGE).toNat).take 10) :=
  C5_window_and_total 1 [q0] ⟨[q0], 1⟩ (by rfl)

/-- C1: the claim (and §4.3 of the spec) says deleting an id with no
Question row answers 404, and a second delete of the same id answers 404.
The handler's `abort(404)` is raised inside its `try:` block, so the bare
`except:` catches the `NotFound` and replaces it with `abort(422)`:
deleting an absent id evaluates to 422, and after a successful delete the
second delete of the same id evaluates to 422 as well. -/
theorem C1_delete_absent_id_gives_422 :
    delete_question 7 [] = .error 422 ∧
    delete_question 1 [q0] = .ok (1, []) ∧
    delete_question 1 [] = .error 422 :=
  ⟨rfl, rfl, rfl⟩

/-- A complete creation body and one with a missing `answer`. -/
def fullBody : RequestBody := ⟨some "What is H2O?", some "Water", some 1, some 1, none⟩

/-- A creation body missing the `answer` field. -/
def missingAnswerBody : RequestBody := ⟨some "What is H2O?", none, some 1, some 1, none⟩

/-- C2: the claim (and §4.4 of the spec) says a create request with a
missing or falsy field answers 400.  The handler's `abort(400)` is raised
inside its `try:` block, so the bare `except:` catches the `BadRequest`
and replaces it with `abort(422)`: a body with a missing field evaluates
to 422.  The second half of the claim holds: with all four fields truthy
the new row is persisted and only the success flag is returned. -/
theorem C2_create_missing_field_gives_422 :
    create_question 1 missingAnswerBody [] 1 = .error 422 ∧
    create_question 1 fullBody [] 1 = .ok (.created, [⟨1, "What is H2O?", "Water", 1, 1⟩]) :=
  ⟨rfl, rfl⟩

/-- A question row in category 3. -/
def qCat3 : Question := ⟨1, "q", "a", 3, 1⟩

/-- C3: the claim (and §4.6 of the spec) says an empty fetched question
set answers 404.  The handler's `abort(404)` is raised inside its `try:`
block, so the bare `except:` catches the `NotFound` and replaces it with
`abort(400)`: with an empty store (all categories), or with a category
holding no questions, the handler evaluates to 400, not 404. -/
theorem C3_empty_quiz_set_gives_400 :
    get_quizzes 0 ⟨some [], none⟩ [] = .error 400 ∧
    get_quizzes 0 ⟨none, some ⟨5, "Science"⟩⟩ [qCat3] = .error 400 :=
  ⟨rfl, rfl⟩

/-- C8: `list_by_category` always succeeds and returns exactly the
questions of the requested category — a permutation of the matching rows,
so each matching row exactly once — ordered by ascending id, with
`total_questions` the full match count (no pagination window); an empty
match is an ordinary success with an empty list. -/
theorem C8_by_category_complete_sorted (category_id : Int) (store : Store) :
    (get_by_category category_id store).questions.Perm
      (store.filter (fun q => q.category == category_id)) ∧
    (∀ q, q ∈ (get_by_category category_id store).questions ↔
      q ∈ store ∧ q.category = category_id) ∧
    (get_by_category category_id store).questions.Sorted qle ∧
    (get_by_category category_id store).total_questions =
      (store.filter (fun q => q.category == category_id)).length := by
  refine ⟨orderById_perm _, ?_, orderById_sorted _, ?_⟩
  · intro q
    simp [get_by_category, orderById_mem, List.mem_filter]
  · simp [get_by_category, orderById_length]

/-- C9: in search mode (truthy `searchTerm`), `POST /questions` never
modifies the store, and its response is entirely independent of the
`question`, `answer`, `category` and `difficulty` fields of the body. -/
theorem C9_search_mode_pure (page : Int) (b1 b2 : RequestBody) (store : Store) (newId : Nat)
    (t : String) (h1 : b1.searchTerm = some t) (h2 : b2.searchTerm = some t) (ht : t ≠ "") :
    (∀ resp store2, create_question page b1 store newId = .ok (resp, store2) → store2 = store) ∧
    create_question page b1 store newId = create_question page b2 store newId := by
  have htr : truthyStr (some t) = true := by simp [truthyStr, ht]
  constructor
  · intro resp store2 h
    simp only [create_question, create_question_try, h1, htr, if_pos] at h
    rw [Except.ok.injEq, Prod.mk.injEq] at h
    exact h.2.symm
  · simp only [create_question, create_question_try, h1, h2, htr, if_pos]

/-- A search body that also carries the four creation fields. -/
def searchBodyFull : RequestBody := ⟨some "What is H2O?", some "Water", some 1, some 1, some "h2o"⟩

/-- A search body carrying nothing but the term. -/
def searchBodyBare : RequestBody := ⟨none, none, none, none, some "h2o"⟩

/-- Witness for C9: the same search term with and without the creation
fields, against a one-question store. -/
theorem C9_search_mode_pure_witness :
    (∀ resp store2, create_question 1 searchBodyFull [q0] 2 = .ok (resp, store2) →
      store2 = [q0]) ∧
    create_question 1 searchBodyFull [q0] 2 = create_question 1 searchBodyBare [q0] 2 :=
  C9_search_mode_pure 1 searchBodyFull searchBodyBare [q0] 2 "h2o" rfl rfl (by decide)

/-- A question whose text the `_` wildcard reaches. -/
def qAbc : Question := ⟨1, "abc", "x", 1, 1⟩

/-- A search body whose term contains the SQL `_` wildcard. -/
def searchUnderscoreBody : RequestBody := ⟨none, none, none, none, some "a_c"⟩

/-- C7 counterexample: searching for "a_c" returns the question "abc"
(the unescaped term is interpolated into the `ilike` pattern, so `_`
matches any single character), yet "a_c" is not contained in "abc" as a
case-insensitive substring — so the result set is not "exactly the
questions whose question text contains searchTerm case-insensitively as
a substring". -/
theorem C7_wildcard_counterexample :
    create_question 1 searchUnderscoreBody [qAbc] 2 =
      .ok (.searched ⟨[qAbc], 1⟩, [qAbc]) ∧
    ¬ ciSubstring "a_c" qAbc.question :=
  ⟨rfl, fun h => by
    have heq := h.sublist.eq_of_length (by decide)
    exact absurd heq (by decide)⟩

/-- C7 (amended): in search mode the result set is exactly the questions
whose text matches the case-insensitive SQL `LIKE` pattern
`%searchTerm%` — substring containment whenever the term contains no
`%`/`_` wildcard — ordered by ascending id and windowed by the same
`(page-1)*10 .. +10` slice, with `total_questions` the full match count;
a term matching zero questions yields success with an empty list and
`total_questions` 0, never a 404. -/
theorem C7_search_like_window (page : Int) (body : RequestBody) (store : Store) (newId : Nat)
    (t : String) (hs : body.searchTerm = some t) (ht : t ≠ "") :
    ∃ matched : Store,
      create_question page body store newId =
        .ok (.searched ⟨pySlice matched ((page - 1) * QUESTIONS_PER_PAGE)
          ((page - 1) * QUESTIONS_PER_PAGE + QUESTIONS_PER_PAGE), matched.length⟩, store) ∧
      (∀ q, q ∈ matched ↔ q ∈ store ∧ sqlIlike ("%" ++ t ++ "%") q.question) ∧
      matched.Sorted qle ∧
      ((∀ q ∈ store, ¬ sqlIlike ("%" ++ t ++ "%") q.question) →
        create_question page body store newId = .ok (.searched ⟨[], 0⟩, store)) := by
  have htr : truthyStr (some t) = true := by simp [truthyStr, ht]
  refine ⟨(orderById store).filter (fun q => sqlIlike ("%" ++ t ++ "%") q.question),
    ?_, ?_, ?_, ?_⟩
  · simp only [create_question, create_question_try, hs, htr, if_pos, Option.getD_some]
  · intro q
    simp [List.mem_filter, orderById_mem]
  · exact List.Pairwise.filter _ (orderById_sorted store)
  · intro hnone
    have hnil : (orderById store).filter (fun q => sqlIlike ("%" ++ t ++ "%") q.question) = [] := by
      rw [List.filter_eq_nil_iff]
      intro q hq
      simpa using hnone q ((orderById_mem store q).mp hq)
    simp only [create_question, create_question_try, hs, htr, if_pos, Option.getD_some,
      hnil, pySlice_nil, List.length_nil]

/-- Witness for the amended C7: the bare search body against a
one-question store. -/
theorem C7_search_like_window_witness :
    ∃ matched : Store,
      create_question 1 searchBodyBare [q0] 2 =
        .ok (.searched ⟨pySlice matched ((1 - 1) * QUESTIONS_PER_PAGE)
          ((1 - 1) * QUESTIONS_PER_PAGE + QUESTIONS_PER_PAGE), matched.length⟩, [q0]) ∧
      (∀ q, q ∈ matched ↔ q ∈ [q0] ∧ sqlIlike ("%" ++ "h2o" ++ "%") q.question) ∧
      matched.Sorted qle ∧
      ((∀ q ∈ [q0], ¬ sqlIlike ("%" ++ "h2o" ++ "%") q.question) →
        create_question 1 searchBodyBare [q0] 2 = .ok (.searched ⟨[], 0⟩, [q0])) :=
  C7_search_like_window 1 searchBodyBare [q0] 2 "h2o" rfl (by decide)

/-- C4: under the store invariant that ids are unique (the primary key):
first, on any successful quiz response a non-null returned question
belongs to the fetched candidate set and its id is not among
`previous_questions`; second, whenever the fetched candidate set is
non-empty (an empty fetch aborts instead, see C3) but every candidate's
id is among `previous_questions`, the handler succeeds outright with a
null question. -/
theorem C4_quiz_pick_fresh (pick : Nat) (body : QuizBody) (store : Store)
    (hids : (store.map Question.id).Nodup) :
    (∀ r q, get_quizzes pick body store = .ok r → r = some q →
        q ∈ quizCandidates body store ∧ q.id ∉ prevIds body) ∧
    ((quizCandidates body store ≠ [] ∧
        ∀ q ∈ quizCandidates body store, q.id ∈ prevIds body) →
      get_quizzes pick body store = .ok none) := by
  have hsub : List.Sublist (quizCandidates body store) store := by
    unfold quizCandidates
    cases body.quiz_category with
    | none => exact List.Sublist.refl _
    | some c =>
      dsimp only
      split
      · exact List.filter_sublist store
      · exact List.Sublist.refl _
  have hnod : (quizCandidates body store).Nodup := (hids.sublist (hsub.map Question.id)).of_map
  constructor
  · intro r q h hq
    subst hq
    cases htry : get_quizzes_try pick body store with
    | error e =>
      rw [get_quizzes, htry] at h
      exact absurd h (by simp)
    | ok val =>
      rw [get_quizzes, htry] at h
      rw [Except.ok.injEq] at h
      subst h
      by_cases h0 : (quizCandidates body store).length = 0
      · rw [get_quizzes_try] at htry
        simp only [h0, if_pos] at htry
        exact absurd htry (by simp)
      · cases hprev : body.previous_questions with
        | none =>
          rw [get_quizzes_try] at htry
          simp only [hprev, if_neg h0, if_pos h0] at htry
          rw [Except.ok.injEq] at htry
          refine ⟨mem_of_getElem_opt htry, ?_⟩
          simp [prevIds, hprev]
        | some ps =>
          by_cases hps : ps.isEmpty
          · rw [get_quizzes_try] at htry
            simp only [hprev, hps, Bool.not_true, if_neg h0, if_pos h0, Bool.false_eq_true,
              if_false] at htry
            rw [Except.ok.injEq] at htry
            refine ⟨mem_of_getElem_opt htry, ?_⟩
            simp [prevIds, hprev, List.isEmpty_iff.mp hps]
          · rw [get_quizzes_try] at htry
            simp only [hprev, hps, Bool.not_false, if_neg h0, if_true,
              Bool.not_eq_true'] at htry
            rw [quizFilter_eq_filter _ ps hnod] at htry
            by_cases hF : ((quizCandidates body store).filter
                (fun x => !decide (x.id ∈ ps))).length ≠ 0
            · rw [if_pos hF, Except.ok.injEq] at htry
              have hmem := mem_of_getElem_opt htry
              rw [List.mem_filter] at hmem
              refine ⟨hmem.1, ?_⟩
              have hid := hmem.2
              simp only [Bool.not_eq_true', decide_eq_false_iff_not] at hid
              simpa [prevIds, hprev] using hid
            · rw [if_neg hF, Except.ok.injEq] at htry
              exact absurd htry (by simp)
  · rintro ⟨hne, hall⟩
    have h0 : ¬ (quizCandidates body store).length = 0 :=
      fun hl => hne (List.length_eq_zero.mp hl)
    cases hprev : body.previous_questions with
    | none =>
      obtain ⟨q, hq⟩ := List.exists_mem_of_ne_nil _ hne
      have := hall q hq
      simp [prevIds, hprev] at this
    | some ps =>
      by_cases hps : ps.isEmpty
      · obtain ⟨q, hq⟩ := List.exists_mem_of_ne_nil _ hne
        have := hall q hq
        simp [prevIds, hprev, List.isEmpty_iff.mp hps] at this
      · have hnil : (quizCandidates body store).filter
            (fun x => !decide (x.id ∈ ps)) = [] := by
          rw [List.filter_eq_nil_iff]
          intro a ha
          have := hall a ha
          simp [prevIds, hprev] at this
          simp [this]
        have htry : get_quizzes_try pick body store = .ok none := by
          rw [get_quizzes_try]
          simp only [hprev, hps, Bool.not_false, if_neg h0, if_true, Bool.not_eq_true']
          rw [quizFilter_eq_filter _ ps hnod, hnil]
          simp
        rw [get_quizzes, htry]

/-- Quiz witness rows: ids 1 and 2. -/
def qA : Question := ⟨1, "a", "x", 1, 1⟩

/-- Second quiz witness row. -/
def qB : Question := ⟨2, "b", "y", 1, 1⟩

/-- Witness for C4 at a one-question store whose only question was
already seen: both conjuncts instantiated, and the exhaustion conjunct
exercised — its antecedent holds here and yields the concrete success
`.ok none`. -/
theorem C4_quiz_pick_fresh_witness :
    ((∀ r q, get_quizzes 0 ⟨some [1], none⟩ [qA] = .ok r → r = some q →
        q ∈ quizCandidates ⟨some [1], none⟩ [qA] ∧ q.id ∉ prevIds ⟨some [1], none⟩) ∧
      ((quizCandidates ⟨some [1], none⟩ [qA] ≠ [] ∧
          ∀ q ∈ quizCandidates ⟨some [1], none⟩ [qA], q.id ∈ prevIds ⟨some [1], none⟩) →
        get_quizzes 0 ⟨some [1], none⟩ [qA] = .ok none)) ∧
    get_quizzes 0 ⟨some [1], none⟩ [qA] = .ok none :=
  ⟨C4_quiz_pick_fresh 0 ⟨some [1], none⟩ [qA] (by decide),
    (C4_quiz_pick_fresh 0 ⟨some [1], none⟩ [qA] (by decide)).2 ⟨by decide, by decide⟩⟩
